import Mathlib

/-!
Shallow embedding of the PV fault-detection frontend core:
the mock cascading prediction service (`mockPredictionService.ts`),
the backend API client (`apiService.ts`: `checkBackendHealth`,
`predictImage`, `predictBatch`), the health-polling delay policy and
the history update of the index page, and the prediction data model
(`types/prediction.ts`).

JavaScript `number` is modelled as `ℚ`; each `Math.random()` call that
influences a result is an explicit parameter (the random values used
only for simulated delays are omitted, as they never reach a result);
`fetch` outcomes are an explicit inductive input; `undefined`/`null`
optional fields are `Option`; JS array indexing out of range yields
`none`.
-/

namespace PV

/-- A browser `File`, identified by its name (opaque payload). -/
structure JsFile where
  name : String
deriving DecidableEq, Repr

/-- A blob URL as produced by `URL.createObjectURL`: modelled as the
file it was derived from (deterministic in the source file). -/
structure ObjectURL where
  source : JsFile
deriving DecidableEq, Repr

def createObjectURL (f : JsFile) : ObjectURL := ⟨f⟩

/-- The TS union type `"Healthy" | "Anomalous"` of `Stage1Result.label`. -/
inductive Stage1Label where
  | healthy
  | anomalous
deriving DecidableEq, Repr

/-- TS `interface Stage1Result` from `types/prediction.ts`. -/
structure Stage1Result where
  label : Stage1Label
  confidence : ℚ
deriving DecidableEq, Repr

/-- TS `interface Stage2Result` from `types/prediction.ts`. -/
structure Stage2Result where
  group_label : String
  confidence : ℚ
deriving DecidableEq, Repr

/-- TS `interface Stage3Result` from `types/prediction.ts`. -/
structure Stage3Result where
  fine_label : String
  confidence : ℚ
deriving DecidableEq, Repr

/-- TS `interface PredictionResult` from `types/prediction.ts`. -/
structure PredictionResult where
  stage1 : Stage1Result
  stage2 : Option Stage2Result := none
  stage3 : Option Stage3Result := none
  timestamp : String
  imageUrl : Option ObjectURL := none
  error : Option String := none
deriving DecidableEq, Repr

/-- JS array indexing `l[i]`: `undefined` (`none`) when out of range,
including negative indices. -/
def jsIndex {α : Type} (l : List α) (i : ℤ) : Option α :=
  if 0 ≤ i then l.get? i.toNat else none

/-! ## Health polling and history (Index page) -/

/-- The page-level backend status union
`"unknown" | "loading" | "ready" | "error"`. -/
inductive BackendStatus where
  | unknown
  | loading
  | ready
  | error
deriving DecidableEq, Repr

/-- The health record returned by the backend health endpoint
(`{ status: string; message?: string }`). -/
structure Health where
  status : String
  message : Option String := none
deriving DecidableEq, Repr

/-- Status classification inside `pollHealth`: `"ok"` maps to `ready`,
`"loading"` to `loading`, anything else to `error`. -/
def statusFromHealth (health : Health) : BackendStatus :=
  if health.status = "ok" then .ready
  else if health.status = "loading" then .loading
  else .error

/-- The delay (ms) before the next poll, from
`const nextDelay = nextStatus === "ready" ? 30000 : 5000;`. -/
def nextPollDelay (nextStatus : BackendStatus) : ℕ :=
  if nextStatus = .ready then 30000 else 5000

/-- The history update in `handleAnalyze`:
`setHistory((prev) => [result, ...prev.slice(0, 9)])`. -/
def historyUpdate (result : PredictionResult) (prev : List PredictionResult) :
    List PredictionResult :=
  result :: prev.take 9

/-! ## API service (`apiService.ts`) -/

/-- Outcome of a `fetch` call, as observed by the service code:
either the promise rejects (network error), or a response arrives with
an `ok` flag, a numeric `status`, a text body, and a JSON body that
parses to `some β` or fails to parse (`none`). -/
inductive FetchOutcome (β : Type) where
  | networkError (msg : String)
  | response (ok : Bool) (status : ℕ) (text : String) (body : Option β)

/-- Backend prediction record `ApiPrediction` of `apiService.ts`
(`stage2`/`stage3` may be absent or `null`, both modelled `none`). -/
structure ApiPrediction where
  stage1 : Stage1Result
  stage2 : Option Stage2Result := none
  stage3 : Option Stage3Result := none
  error : Option String := none
deriving DecidableEq, Repr

/-- The throwing body of `checkBackendHealth` (before the `catch`):
non-ok responses throw `HTTP ${status}`; an unparseable body makes
`response.json()` reject; a network error rejects. -/
def checkBackendHealthTry (resp : FetchOutcome Health) : Except String Health :=
  match resp with
  | .networkError msg => .error msg
  | .response ok status _text body =>
    if !ok then .error ("HTTP " ++ toString status)
    else match body with
      | none => .error "invalid JSON"
      | some h => .ok h

/-- Function `checkBackendHealth`: the `catch` turns every rejection into
`{ status: "error", message: "Backend not reachable" }`; the return
type being plain `Health` reflects that the function never rejects. -/
def checkBackendHealth (resp : FetchOutcome Health) : Health :=
  match checkBackendHealthTry resp with
  | .ok h => h
  | .error _ => { status := "error", message := some "Backend not reachable" }

/-- Function `predictImage`: non-ok responses throw
`Prediction failed: ${text}`; ok responses are transformed to a
`PredictionResult` carrying the backend stage fields, a fresh
timestamp (passed in as `now`) and the blob URL of the input file. -/
def predictImage (file : JsFile) (now : String) (resp : FetchOutcome ApiPrediction) :
    Except String PredictionResult :=
  match resp with
  | .networkError msg => .error msg
  | .response ok _status text body =>
    if !ok then .error ("Prediction failed: " ++ text)
    else match body with
      | none => .error "invalid JSON"
      | some data =>
        .ok { stage1 := data.stage1
              stage2 := data.stage2
              stage3 := data.stage3
              timestamp := now
              imageUrl := some (createObjectURL file) }

/-- JS `array.map((x, index) => f index x)` starting at index `i`. -/
def mapWithIndex {α β : Type} (f : ℕ → α → β) : ℕ → List α → List β
  | _, [] => []
  | i, a :: as => f i a :: mapWithIndex f (i + 1) as

/-- The per-item transform inside `predictBatch`:
`{ stage1: data.stage1, stage2: data.stage2 ?? undefined, stage3:
data.stage3 ?? undefined, timestamp, imageUrl:
URL.createObjectURL(files[index]) }` — note the backend `error` field
is not copied. -/
def batchTransform (files : List JsFile) (now : String) (index : ℕ)
    (data : ApiPrediction) : PredictionResult :=
  { stage1 := data.stage1
    stage2 := data.stage2
    stage3 := data.stage3
    timestamp := now
    imageUrl := (files.get? index).map createObjectURL }

/-- Function `predictBatch`: non-ok responses throw
`Batch prediction failed: ${text}`; ok responses are mapped item by
item with `batchTransform`. -/
def predictBatch (files : List JsFile) (now : String)
    (resp : FetchOutcome (List ApiPrediction)) :
    Except String (List PredictionResult) :=
  match resp with
  | .networkError msg => .error msg
  | .response ok _status text body =>
    if !ok then .error ("Batch prediction failed: " ++ text)
    else match body with
      | none => .error "invalid JSON"
      | some dataArray => .ok (mapWithIndex (batchTransform files now) 0 dataArray)

/-! ## Mock prediction service (`mockPredictionService.ts`)

Each stage takes its `Math.random()` draws as explicit rationals; the
draws used for the simulated `delay` are omitted (they never influence
a result). A stage whose JS array index would fall out of range (never
the case for draws in `[0,1)`) returns `none`, matching the
`undefined` element access. -/

/-- Lookup table `GROUP_FAULT_MAPPING` of `mockPredictionService.ts`:
`Record<string, string[]>` lookup, `none` for a missing key. -/
def GROUP_FAULT_MAPPING (g : String) : Option (List String) :=
  if g = "Hotspot" then some ["Hot-Spot-Multi", "Hot-Spot"]
  else if g = "Obstruction" then some ["Soiling", "Vegetation", "Shadowing"]
  else if g = "Cell-Defect" then some ["Cracking", "Cell", "Cell-Multi"]
  else if g = "Electrical-Fault" then some ["Diode", "Diode-Multi", "Offline-Module"]
  else none

/-- Array constant `const GROUPS = ["Hotspot", "Obstruction", "Cell-Defect", "Electrical-Fault"]`. -/
def GROUPS : List String :=
  ["Hotspot", "Obstruction", "Cell-Defect", "Electrical-Fault"]

/-- Mock stage 1: `Math.random() < 0.7` decides `Anomalous`;
confidence is `0.85 + Math.random() * 0.14`. -/
def runStage1 (rAnom cRand : ℚ) : Stage1Result :=
  { label := if rAnom < 0.7 then .anomalous else .healthy
    confidence := 0.85 + cRand * 0.14 }

/-- Mock stage 2: `GROUPS[Math.floor(Math.random() * GROUPS.length)]`
with confidence `0.80 + Math.random() * 0.18`. -/
def runStage2 (rGroup cRand : ℚ) : Option Stage2Result :=
  (jsIndex GROUPS ⌊rGroup * GROUPS.length⌋).map fun randomGroup =>
    { group_label := randomGroup, confidence := 0.80 + cRand * 0.18 }

/-- Local constant `const faultRange = GROUP_FAULT_MAPPING[groupLabel] || ["Hot-Spot"]`
(a missing key yields `undefined`, which `||` replaces by the
fallback; present values are non-empty arrays, hence truthy). -/
def faultRange (groupLabel : String) : List String :=
  (GROUP_FAULT_MAPPING groupLabel).getD ["Hot-Spot"]

/-- Mock stage 3: a uniform draw from `faultRange` with confidence
`0.75 + Math.random() * 0.22`. -/
def runStage3 (groupLabel : String) (rFault cRand : ℚ) : Option Stage3Result :=
  (jsIndex (faultRange groupLabel) ⌊rFault * (faultRange groupLabel).length⌋).map
    fun randomFault =>
      { fine_label := randomFault, confidence := 0.75 + cRand * 0.22 }

/-- The six result-relevant `Math.random()` draws of one full
prediction: stage 1 anomaly draw and confidence draw, stage 2 group
draw and confidence draw, stage 3 fault draw and confidence draw. -/
structure Rand where
  r1 : ℚ
  c1 : ℚ
  r2 : ℚ
  c2 : ℚ
  r3 : ℚ
  c3 : ℚ

/-- Function `runFullPrediction`: stage 1 always runs; on `Healthy` the result
is returned with only `stage1` populated; otherwise stages 2 and 3 run
and are attached. The second component records the stage numbers
passed to `onStageComplete`, i.e. which stage classifiers ran. A
`none` first component stands for the unreachable out-of-range array
access inside stage 2 or 3 (impossible for draws in `[0,1)`). -/
def runFullPrediction (imageFile : JsFile) (now : String) (ρ : Rand) :
    Option PredictionResult × List ℕ :=
  let stage1Result := runStage1 ρ.r1 ρ.c1
  let result : PredictionResult :=
    { stage1 := stage1Result
      timestamp := now
      imageUrl := some (createObjectURL imageFile) }
  if stage1Result.label = .healthy then
    (some result, [1])
  else
    match runStage2 ρ.r2 ρ.c2 with
    | none => (none, [1])
    | some stage2Result =>
      match runStage3 stage2Result.group_label ρ.r3 ρ.c3 with
      | none => (none, [1, 2])
      | some stage3Result =>
        (some { result with stage2 := some stage2Result, stage3 := some stage3Result },
         [1, 2, 3])

/-! ## Basic lemmas for `mapWithIndex` -/

theorem length_mapWithIndex {α β : Type} (f : ℕ → α → β) (i : ℕ) (l : List α) :
    (mapWithIndex f i l).length = l.length := by
  induction l generalizing i with
  | nil => rfl
  | cons a as ih => simp [mapWithIndex, ih]

theorem get?_mapWithIndex {α β : Type} (f : ℕ → α → β) (i n : ℕ) (l : List α) :
    (mapWithIndex f i l).get? n = (l.get? n).map (f (i + n)) := by
  induction l generalizing i n with
  | nil => simp [mapWithIndex]
  | cons a as ih =>
    cases n with
    | zero => simp [mapWithIndex]
    | succ m =>
      simp only [mapWithIndex, List.get?_cons_succ, ih (i + 1) m]
      ring_nf

/-! ## Helper lemmas for the random index draws -/

theorem jsIndex_floor_mem {α : Type} (l : List α) (r : ℚ) (h0 : 0 ≤ r) (h1 : r < 1)
    (hl : l ≠ []) :
    ∃ a, jsIndex l ⌊r * l.length⌋ = some a ∧ a ∈ l := by
  have hn : 0 < (l.length : ℚ) := by exact_mod_cast List.length_pos.mpr hl
  have hge : (0 : ℤ) ≤ ⌊r * l.length⌋ :=
    Int.floor_nonneg.mpr (mul_nonneg h0 (le_of_lt hn))
  have hlt : ⌊r * l.length⌋ < (l.length : ℤ) := by
    apply Int.floor_lt.mpr
    push_cast
    nlinarith
  have hlt2 : (⌊r * (l.length : ℚ)⌋).toNat < l.length := by omega
  refine ⟨l.get ⟨(⌊r * (l.length : ℚ)⌋).toNat, hlt2⟩, ?_, List.get_mem _ _ _⟩
  simp [jsIndex, hge, List.get?_eq_get hlt2]

theorem runStage2_eq (r c : ℚ) (h0 : 0 ≤ r) (h1 : r < 1) :
    ∃ g, g ∈ GROUPS ∧
      runStage2 r c = some { group_label := g, confidence := 0.80 + c * 0.18 } := by
  obtain ⟨g, hg, hmem⟩ := jsIndex_floor_mem GROUPS r h0 h1 (by decide)
  exact ⟨g, hmem, by simp [runStage2, hg]⟩

theorem faultRange_ne_nil (g : String) : faultRange g ≠ [] := by
  unfold faultRange GROUP_FAULT_MAPPING
  repeat' split
  all_goals simp

theorem runStage3_eq (groupLabel : String) (r c : ℚ) (h0 : 0 ≤ r) (h1 : r < 1) :
    ∃ f, f ∈ faultRange groupLabel ∧
      runStage3 groupLabel r c =
        some { fine_label := f, confidence := 0.75 + c * 0.22 } := by
  obtain ⟨f, hf, hmem⟩ :=
    jsIndex_floor_mem (faultRange groupLabel) r h0 h1 (faultRange_ne_nil groupLabel)
  exact ⟨f, hmem, by simp [runStage3, hf]⟩

theorem mem_GROUPS_mapping (g : String) (hmem : g ∈ GROUPS) :
    GROUP_FAULT_MAPPING g = some (faultRange g) := by
  fin_cases hmem <;> rfl

/-! ## Claims about the cascading prediction -/

/-- C1: whenever the stage-1 result of `runFullPrediction` is
`Healthy`, the returned `PredictionResult` has `stage2` and `stage3`
absent, and the stage-2 and stage-3 classifiers are never invoked
(only stage 1 appears in the invocation trace). -/
theorem runFullPrediction_healthy_early_exit (imageFile : JsFile) (now : String)
    (ρ : Rand) (h : (runStage1 ρ.r1 ρ.c1).label = .healthy) :
    ∃ r, (runFullPrediction imageFile now ρ).1 = some r ∧
      r.stage1.label = .healthy ∧ r.stage2 = none ∧ r.stage3 = none ∧
      2 ∉ (runFullPrediction imageFile now ρ).2 ∧
      3 ∉ (runFullPrediction imageFile now ρ).2 := by
  refine ⟨{ stage1 := runStage1 ρ.r1 ρ.c1
            timestamp := now
            imageUrl := some (createObjectURL imageFile) }, ?_, h, rfl, rfl, ?_, ?_⟩
  all_goals simp [runFullPrediction, h]

/-- C1 witness: a concrete healthy draw (`r1 = 9/10 ≥ 0.7`). -/
theorem runFullPrediction_healthy_early_exit_witness :
    (runStage1 0.9 0).label = .healthy ∧
    ∃ r, (runFullPrediction ⟨"img"⟩ "t" ⟨0.9, 0, 0, 0, 0, 0⟩).1 = some r ∧
      r.stage1.label = .healthy ∧ r.stage2 = none ∧ r.stage3 = none ∧
      2 ∉ (runFullPrediction ⟨"img"⟩ "t" ⟨0.9, 0, 0, 0, 0, 0⟩).2 ∧
      3 ∉ (runFullPrediction ⟨"img"⟩ "t" ⟨0.9, 0, 0, 0, 0, 0⟩).2 :=
  ⟨by norm_num [runStage1],
   runFullPrediction_healthy_early_exit ⟨"img"⟩ "t" ⟨0.9, 0, 0, 0, 0, 0⟩
    (by norm_num [runStage1])⟩

/-- C2: whenever the stage-1 result of `runFullPrediction` is
`Anomalous` (and the stage-2/stage-3 draws lie in `[0,1)` as
`Math.random` guarantees), the returned `PredictionResult` has both
`stage2` and `stage3` present, and the stage-3 fine label belongs to
the fault set that `GROUP_FAULT_MAPPING` associates with the stage-2
group label. -/
theorem runFullPrediction_anomalous_cascade (imageFile : JsFile) (now : String)
    (ρ : Rand) (h : (runStage1 ρ.r1 ρ.c1).label = .anomalous)
    (h20 : 0 ≤ ρ.r2) (h21 : ρ.r2 < 1) (h30 : 0 ≤ ρ.r3) (h31 : ρ.r3 < 1) :
    ∃ r s2 s3 faults,
      (runFullPrediction imageFile now ρ).1 = some r ∧
      r.stage2 = some s2 ∧ r.stage3 = some s3 ∧
      GROUP_FAULT_MAPPING s2.group_label = some faults ∧
      s3.fine_label ∈ faults := by
  obtain ⟨g, hgmem, hs2⟩ := runStage2_eq ρ.r2 ρ.c2 h20 h21
  obtain ⟨f, hfmem, hs3⟩ := runStage3_eq g ρ.r3 ρ.c3 h30 h31
  refine ⟨{ stage1 := runStage1 ρ.r1 ρ.c1
            stage2 := some { group_label := g, confidence := 0.80 + ρ.c2 * 0.18 }
            stage3 := some { fine_label := f, confidence := 0.75 + ρ.c3 * 0.22 }
            timestamp := now
            imageUrl := some (createObjectURL imageFile) },
         _, _, faultRange g, ?_, rfl, rfl, mem_GROUPS_mapping g hgmem, hfmem⟩
  simp [runFullPrediction, h, hs2, hs3]

/-- C2 witness: a concrete anomalous draw (`r1 = 0 < 0.7`), stage-2
and stage-3 draws at `0`. -/
theorem runFullPrediction_anomalous_cascade_witness :
    (runStage1 0 0).label = .anomalous ∧
    ∃ r s2 s3 faults,
      (runFullPrediction ⟨"img"⟩ "t" ⟨0, 0, 0, 0, 0, 0⟩).1 = some r ∧
      r.stage2 = some s2 ∧ r.stage3 = some s3 ∧
      GROUP_FAULT_MAPPING s2.group_label = some faults ∧
      s3.fine_label ∈ faults :=
  ⟨by norm_num [runStage1],
   runFullPrediction_anomalous_cascade ⟨"img"⟩ "t" ⟨0, 0, 0, 0, 0, 0⟩
    (by norm_num [runStage1]) (by norm_num) (by norm_num) (by norm_num) (by norm_num)⟩

/-- C3: every `PredictionResult` produced by `runFullPrediction`
satisfies the structural invariant: `stage3` present implies `stage2`
present, and `stage2` present implies the stage-1 label is
`Anomalous`. -/
theorem runFullPrediction_invariant (imageFile : JsFile) (now : String) (ρ : Rand)
    (r : PredictionResult)
    (h : (runFullPrediction imageFile now ρ).1 = some r) :
    (r.stage3.isSome → r.stage2.isSome) ∧
    (r.stage2.isSome → r.stage1.label = .anomalous) := by
  rcases hL : (runStage1 ρ.r1 ρ.c1).label with _ | _
  · simp [runFullPrediction, hL] at h
    subst h
    simp
  · rcases hs2 : runStage2 ρ.r2 ρ.c2 with _ | s2
    · simp [runFullPrediction, hL, hs2] at h
    · rcases hs3 : runStage3 s2.group_label ρ.r3 ρ.c3 with _ | s3
      · simp [runFullPrediction, hL, hs2, hs3] at h
      · simp [runFullPrediction, hL, hs2, hs3] at h
        subst h
        simp [hL]

/-- The concrete healthy prediction used to witness the invariant:
the output of `runFullPrediction` for the draws `⟨0.9, 0, 0, 0, 0, 0⟩`. -/
def healthyRun : PredictionResult :=
  { stage1 := { label := .healthy, confidence := 0.85 }
    timestamp := "t"
    imageUrl := some ⟨⟨"img"⟩⟩ }

/-- C3 witness: the invariant instantiated at a concrete healthy run. -/
theorem runFullPrediction_invariant_witness :
    (runFullPrediction ⟨"img"⟩ "t" ⟨0.9, 0, 0, 0, 0, 0⟩).1 = some healthyRun ∧
    ((healthyRun.stage3.isSome → healthyRun.stage2.isSome) ∧
     (healthyRun.stage2.isSome → healthyRun.stage1.label = .anomalous)) :=
  ⟨by norm_num [runFullPrediction, runStage1, healthyRun, createObjectURL],
   runFullPrediction_invariant ⟨"img"⟩ "t" ⟨0.9, 0, 0, 0, 0, 0⟩ healthyRun
     (by norm_num [runFullPrediction, runStage1, healthyRun, createObjectURL])⟩

/-- C4: with all result-relevant random draws in `[0,1)`, the
confidence of every `StageResult` returned by `runStage1`, `runStage2`
and `runStage3` lies in the closed interval `[0,1]`. -/
theorem stage_confidences_in_unit_interval (r1 c1 r2 c2 r3 c3 : ℚ) (g : String)
    (hc1 : 0 ≤ c1) (hc1' : c1 < 1)
    (hr2 : 0 ≤ r2) (hr2' : r2 < 1) (hc2 : 0 ≤ c2) (hc2' : c2 < 1)
    (hr3 : 0 ≤ r3) (hr3' : r3 < 1) (hc3 : 0 ≤ c3) (hc3' : c3 < 1) :
    (0 ≤ (runStage1 r1 c1).confidence ∧ (runStage1 r1 c1).confidence ≤ 1) ∧
    (∃ s2, runStage2 r2 c2 = some s2 ∧ 0 ≤ s2.confidence ∧ s2.confidence ≤ 1) ∧
    (∃ s3, runStage3 g r3 c3 = some s3 ∧ 0 ≤ s3.confidence ∧ s3.confidence ≤ 1) := by
  obtain ⟨g2, hmem2, hs2⟩ := runStage2_eq r2 c2 hr2 hr2'
  obtain ⟨f3, hmem3, hs3⟩ := runStage3_eq g r3 c3 hr3 hr3'
  refine ⟨⟨?_, ?_⟩, ⟨_, hs2, ?_, ?_⟩, ⟨_, hs3, ?_, ?_⟩⟩ <;> simp [runStage1] <;> nlinarith

/-- C4 witness: all draws at `1/2`. -/
theorem stage_confidences_in_unit_interval_witness :
    (0 ≤ (runStage1 0.5 0.5).confidence ∧ (runStage1 0.5 0.5).confidence ≤ 1) ∧
    (∃ s2, runStage2 0.5 0.5 = some s2 ∧ 0 ≤ s2.confidence ∧ s2.confidence ≤ 1) ∧
    (∃ s3, runStage3 "Hotspot" 0.5 0.5 = some s3 ∧
      0 ≤ s3.confidence ∧ s3.confidence ≤ 1) :=
  stage_confidences_in_unit_interval 0.5 0.5 0.5 0.5 0.5 0.5 "Hotspot"
    (by norm_num) (by norm_num) (by norm_num) (by norm_num) (by norm_num)
    (by norm_num) (by norm_num) (by norm_num) (by norm_num) (by norm_num)

/-! ## Claims about the API service, polling and history -/

/-- C5: on an ok batch response whose array has one entry per input
file, `predictBatch` succeeds with exactly one `PredictionResult` per
input file, in input order: the entry at index `i` is the transform of
the backend prediction at index `i`, whose `imageUrl` is the blob URL
of the file at index `i` (see `batchTransform`). -/
theorem predictBatch_ordered (files : List JsFile) (now text : String) (status : ℕ)
    (dataArray : List ApiPrediction) (hlen : dataArray.length = files.length) :
    ∃ results,
      predictBatch files now (.response true status text (some dataArray)) =
        .ok results ∧
      results.length = files.length ∧
      ∀ i : ℕ, results.get? i = (dataArray.get? i).map (batchTransform files now i) := by
  refine ⟨mapWithIndex (batchTransform files now) 0 dataArray, rfl, ?_, ?_⟩
  · rw [length_mapWithIndex, hlen]
  · intro i
    rw [get?_mapWithIndex]
    simp

/-- C5 witness: a concrete two-element batch. -/
theorem predictBatch_ordered_witness :
    ([{ stage1 := ⟨.anomalous, 0.9⟩ }, { stage1 := ⟨.healthy, 0.95⟩ }] :
        List ApiPrediction).length = ([⟨"a"⟩, ⟨"b"⟩] : List JsFile).length ∧
    ∃ results,
      predictBatch [⟨"a"⟩, ⟨"b"⟩] "t"
        (.response true 200 ""
          (some [{ stage1 := ⟨.anomalous, 0.9⟩ }, { stage1 := ⟨.healthy, 0.95⟩ }])) =
        .ok results ∧
      results.length = ([⟨"a"⟩, ⟨"b"⟩] : List JsFile).length ∧
      ∀ i : ℕ, results.get? i =
        (([{ stage1 := ⟨.anomalous, 0.9⟩ }, { stage1 := ⟨.healthy, 0.95⟩ }] :
            List ApiPrediction).get? i).map (batchTransform [⟨"a"⟩, ⟨"b"⟩] "t" i) :=
  ⟨rfl, predictBatch_ordered [⟨"a"⟩, ⟨"b"⟩] "t" "" 200
    [{ stage1 := ⟨.anomalous, 0.9⟩ }, { stage1 := ⟨.healthy, 0.95⟩ }] rfl⟩

/-- The failing backend batch item: its `error` field is populated. -/
def batchItemFailed : ApiPrediction :=
  { stage1 := { label := .anomalous, confidence := 0 }
    error := some "inference failed" }

/-- The sibling successful backend batch item. -/
def batchItemOk : ApiPrediction :=
  { stage1 := { label := .healthy, confidence := 1 } }

/-- C6: the code keeps the sibling success (no abort) but drops the
per-item `error` field: the first returned record has `error = none`
although the backend item carried `error = some "inference failed"`,
contradicting the declared `ApiPrediction.error`/`PredictionResult.error`
plumbing and the partial-batch-success contract. -/
theorem predictBatch_error_field_dropped :
    batchItemFailed.error = some "inference failed" ∧
    ∃ results,
      predictBatch [⟨"a"⟩, ⟨"b"⟩] "t"
        (.response true 200 "" (some [batchItemFailed, batchItemOk])) = .ok results ∧
      results.length = 2 ∧
      (results.get? 0).map (fun res => res.error) = some none ∧
      (results.get? 1).map (fun res => res.stage1) = some batchItemOk.stage1 :=
  ⟨rfl, _, rfl, rfl, rfl, rfl⟩

/-- C7: `predictImage` rejects every non-ok response with an error
carrying the response text (no default or fallback result), and on
every ok response returns a `PredictionResult` whose stage fields
equal the backend fields. -/
theorem predictImage_spec (file : JsFile) (now : String) :
    (∀ (status : ℕ) (text : String) (body : Option ApiPrediction),
       predictImage file now (.response false status text body) =
         .error ("Prediction failed: " ++ text)) ∧
    (∀ (status : ℕ) (text : String) (data : ApiPrediction), ∃ res,
       predictImage file now (.response true status text (some data)) = .ok res ∧
       res.stage1 = data.stage1 ∧ res.stage2 = data.stage2 ∧ res.stage3 = data.stage3) :=
  ⟨fun _ _ _ => rfl, fun _ _ _ => ⟨_, rfl, rfl, rfl, rfl⟩⟩

/-- C8: the poll delay chosen when the backend is ready (30000 ms) is
strictly greater than the 5000 ms delay chosen for every non-ready
status. -/
theorem nextPollDelay_backoff (s : BackendStatus) (h : s ≠ .ready) :
    nextPollDelay .ready = 30000 ∧ nextPollDelay s = 5000 ∧
    nextPollDelay s < nextPollDelay .ready := by
  cases s
  case ready => exact absurd rfl h
  all_goals exact ⟨rfl, rfl, by decide⟩

/-- C8 witness: the non-ready status `loading`. -/
theorem nextPollDelay_backoff_witness :
    nextPollDelay .ready = 30000 ∧ nextPollDelay .loading = 5000 ∧
    nextPollDelay .loading < nextPollDelay .ready :=
  nextPollDelay_backoff .loading (by decide)

/-- C9: `checkBackendHealth` is total over all fetch outcomes (its
result type is a plain `Health`, so it never rejects): a network error
or a non-ok response yields
`{ status: "error", message: "Backend not reachable" }`, and an ok
response with a parseable body is returned as is. -/
theorem checkBackendHealth_total (msg : String) (status : ℕ) (text : String)
    (body : Option Health) (h : Health) :
    checkBackendHealth (.networkError msg) =
      { status := "error", message := some "Backend not reachable" } ∧
    checkBackendHealth (.response false status text body) =
      { status := "error", message := some "Backend not reachable" } ∧
    checkBackendHealth (.response true status text (some h)) = h :=
  ⟨rfl, rfl, rfl⟩

/-- C10: the history update of `handleAnalyze` keeps the list bounded
by 10 entries, newest first: the new result is prepended and the tail
is the first nine previous entries in their previous order. -/
theorem historyUpdate_bounded (result : PredictionResult)
    (prev : List PredictionResult) :
    (historyUpdate result prev).length ≤ 10 ∧
    (historyUpdate result prev).head? = some result ∧
    (historyUpdate result prev).tail = prev.take 9 := by
  refine ⟨?_, rfl, rfl⟩
  simp only [historyUpdate, List.length_cons, List.length_take]
  omega

end PV
